import Mathlib

/-!
Verification of the Game Session Orchestrator of `src/app.py` (a Streamlit
chess front-end).  The program delegates all chess rules to the external
`python-chess` library; following the spec's own architecture ("Rules
Oracle ... consumed, not implemented, by the core") we embed the app's
handlers parametrically over an abstract interface `ChessApi` collecting
exactly the library operations the source calls, together with the
documented laws of that library that the claims rely on (`push` appends to
`move_stack` and flips `turn`).  Concrete toy instances of the interface
serve as evaluation points for witnesses and counterexamples.
-/

namespace ChessTutor

/-- Piece-type constant `chess.PAWN` of the python-chess library. -/
def PAWN : Nat := 1

/-- Piece-type constant `chess.QUEEN` of the python-chess library. -/
def QUEEN : Nat := 5

/-- A `chess.Piece`: colour (`true` = `chess.WHITE`) and piece type. -/
structure Piece where
  color : Bool
  piece_type : Nat
deriving DecidableEq

/-- A `chess.Move`: origin square, destination square, optional promotion
piece type, squares numbered 0..63 as in the library
(`chess.square(f, r) = r * 8 + f`). -/
structure Move where
  from_square : Nat
  to_square : Nat
  promotion : Option Nat
deriving DecidableEq

/-- The operations of the external chess library (the spec's Rules Oracle
plus the board accessors) that `src/app.py` invokes, over an opaque
position type `Pos`.  Only the operations the source uses appear. -/
structure ChessApi (Pos : Type) where
  /-- `chess.Board()`: the standard initial position. -/
  initial : Pos
  /-- `board.legal_moves`, as the list of its members. -/
  legal_moves : Pos → List Move
  /-- `board.push(m)` as a functional update. -/
  push : Pos → Move → Pos
  /-- `board.piece_at(sq)`. -/
  piece_at : Pos → Nat → Option Piece
  /-- `board.turn` (`true` = `chess.WHITE`). -/
  turn : Pos → Bool
  /-- `board.move_stack` — the Move Ledger. -/
  move_stack : Pos → List Move
  /-- `board.is_game_over()` — the oracle's terminal-status report. -/
  is_game_over : Pos → Bool
  /-- `board.san(m)` — algebraic notation of a move in a position. -/
  san : Pos → Move → String
  /-- `chess.Move.from_uci(s)`, `none` when the library raises. -/
  from_uci : String → Option Move
  /-- `board.fen()`. -/
  fen : Pos → String
  /-- `chess.pgn.Game.from_board(board)` with headers Event/White/Black
  set, serialized through `StringExporter` — the portable-game-text
  renderer, a pure function of the position and the three headers. -/
  pgn_export : Pos → String → String → String → String

/-- Documented behaviour of the python-chess library assumed by the
claims: `push` appends the move to `move_stack` and flips `turn`, and a
fresh `chess.Board()` has an empty `move_stack`. -/
structure ChessApiLaws {Pos : Type} (api : ChessApi Pos) : Prop where
  push_stack : ∀ p m, api.move_stack (api.push p m) = api.move_stack p ++ [m]
  push_turn : ∀ p m, api.turn (api.push p m) = !(api.turn p)
  initial_stack : api.move_stack api.initial = []

/-- One entry of `st.session_state.chat_history`. -/
structure ChatMsg where
  role : String
  content : String
deriving DecidableEq

/-- The Streamlit session state of `src/app.py` (lines 28-35): the
authoritative board, the advisory transcript, the selection square of the
two-phase pointer interaction, and the last applied move. -/
structure SessionState (Pos : Type) where
  board : Pos
  chat_history : List ChatMsg
  selected_square : Option Nat
  last_move : Option Move
deriving DecidableEq

/-- Outcome of one run of the click handler:  the updated session state,
whether `st.rerun()` was called, whether the handler raised an uncaught
exception (`AttributeError` on `piece_at(...).piece_type` when the armed
square is empty), and any message the handler surfaced to the user.  The
source contains no `st.error`/`st.warning`/`st.info` call in this
handler, so `reported` is `none` in every branch — the field exists so
that the reporting claims can be stated. -/
structure ClickResult (Pos : Type) where
  state : SessionState Pos
  rerun : Bool
  crash : Bool
  reported : Option String
deriving DecidableEq

/-- Pixel-to-square mapping of `render_interactive_board`
(lines 100-104): `col_i = x // 50`, `row_i = y // 50`,
`chess.square(col_i, 7 - row_i)`. -/
def square_of_click (x y : Nat) : Nat :=
  (7 - y / 50) * 8 + x / 50

/-- The candidate move built in the armed branch (lines 112-114): a plain
move `sel → sq`, upgraded to a queen promotion when the clicked square is
on rank 0 or 7 and the piece on the armed square is a pawn.  Python
evaluates `chess.square_rank(clicked_square) in [0, 7]` first and `and`
short-circuits, so `piece_at(sel)` is consulted only for back-rank
destinations; there `board.piece_at(...)` returning `None` raises
(`none` result). -/
def build_candidate {Pos : Type} (api : ChessApi Pos) (b : Pos)
    (sel sq : Nat) : Option Move :=
  if sq / 8 = 0 ∨ sq / 8 = 7 then
    match api.piece_at b sel with
    | none => none
    | some pc =>
        if pc.piece_type = PAWN then some ⟨sel, sq, some QUEEN⟩
        else some ⟨sel, sq, none⟩
  else some ⟨sel, sq, none⟩

/-- The click branch of `render_interactive_board` (lines 99-123), given
the clicked square.  Idle (`selected_square` is `None`): arm the square
when it holds a piece of the side to move, otherwise do nothing.  Armed:
build the candidate, push it when legal, clear the selection either
way. -/
def handle_board_click {Pos : Type} (api : ChessApi Pos)
    (st : SessionState Pos) (clicked_square : Nat) : ClickResult Pos :=
  match st.selected_square with
  | none =>
    match api.piece_at st.board clicked_square with
    | some piece =>
        if piece.color = api.turn st.board then
          ⟨{ st with selected_square := some clicked_square }, true, false, none⟩
        else ⟨st, false, false, none⟩
    | none => ⟨st, false, false, none⟩
  | some sel =>
    match build_candidate api st.board sel clicked_square with
    | none => ⟨st, false, true, none⟩
    | some move =>
        if move ∈ api.legal_moves st.board then
          ⟨{ st with board := api.push st.board move,
                     last_move := some move,
                     selected_square := none }, true, false, none⟩
        else
          ⟨{ st with selected_square := none }, true, false, none⟩

/-- Accumulating pass over the characters for `py_split_ws`: `acc` holds
the current token reversed; whitespace closes the token if non-empty. -/
def py_split_ws_aux : List Char → List Char → List String
  | [], acc => if acc = [] then [] else [String.mk acc.reverse]
  | c :: cs, acc =>
      if c.isWhitespace then
        if acc = [] then py_split_ws_aux cs []
        else String.mk acc.reverse :: py_split_ws_aux cs []
      else py_split_ws_aux cs (c :: acc)

/-- Python's `s.strip().split()`: the maximal whitespace-free runs of
`s`, in order (empty pieces discarded). -/
def py_split_ws (s : String) : List String :=
  py_split_ws_aux s.toList []

/-- `get_ai_move` (lines 54-69).  External effects appear as inputs:
`client_ok` is whether the module-level `client` was configured, and
`gen` is the outcome of `client.models.generate_content(...).text` — a
reply string, or the text of the exception the call raised.  The function
returns `(move, None)` exactly when the last whitespace token of the
reply parses as UCI and is legal; every failure is caught by the
`except` and turned into `(None, str(e))` (the library exception texts
are modelled by fixed descriptive strings). -/
def get_ai_move {Pos : Type} (api : ChessApi Pos) (client_ok : Bool)
    (gen : Except String String) (board : Pos) :
    Option Move × Option String :=
  if !client_ok then (none, some "AI not connected.")
  else
    match gen with
    | .error e => (none, some e)
    | .ok text =>
      match (py_split_ws text).getLast? with
      | none => (none, some "list index out of range")
      | some move_str =>
        match api.from_uci move_str with
        | none => (none, some "invalid uci")
        | some move =>
            if move ∈ api.legal_moves board then (some move, none)
            else (none, some "Illegal move")

/-- `get_engine_move` (lines 71-79).  `stockfish_found` is whether
`get_stockfish_path()` found a binary; `engine_play` is the outcome of
`engine.play(board, Limit(0.5)).move` — note the returned move is handed
back with **no** legality check. -/
def get_engine_move (stockfish_found : Bool)
    (engine_play : Except String (Option Move)) :
    Option Move × Option String :=
  if !stockfish_found then (none, some "No Engine")
  else
    match engine_play with
    | .ok m => (m, none)
    | .error e => (none, some e)

/-- The New Game button handler (lines 145-149): rebinds `board`,
`chat_history` and `last_move` — and nothing else; in particular
`selected_square` is not touched. -/
def handle_new_game {Pos : Type} (api : ChessApi Pos)
    (st : SessionState Pos) : SessionState Pos :=
  { st with board := api.initial, chat_history := [], last_move := none }

/-- `get_pgn_download` (lines 126-133), in state-passing form to record
that it reads but never writes the session state: the exported PGN string
together with the (unchanged) session state. -/
def get_pgn_download {Pos : Type} (api : ChessApi Pos)
    (st : SessionState Pos) (white_name black_name : String) :
    String × SessionState Pos :=
  (api.pgn_export st.board "Gemini Chess Session" white_name black_name, st)

/-- One row of the score sheet's `history_data` (lines 190-207). -/
structure ScoreRow where
  no : Nat
  white : String
  black : String
deriving DecidableEq

/-- The score-sheet replay loop (lines 185-207), written by pairing
consecutive ledger entries: the Python loop alternates on `i % 2`,
starting a row `{No, White, ""}` at each even index and completing and
emitting it at the following odd index, with the trailing unpaired row
appended after the loop — exactly the pairing recursion below.  `temp`
is the replay board (`temp_board`, started at `chess.Board()`), `n` the
full-move number. -/
def history_rows {Pos : Type} (api : ChessApi Pos) :
    Pos → Nat → List Move → List ScoreRow
  | _, _, [] => []
  | temp, n, [m] => [⟨n, api.san temp m, ""⟩]
  | temp, n, m1 :: m2 :: ms =>
      ⟨n, api.san temp m1, api.san (api.push temp m1) m2⟩ ::
        history_rows api (api.push (api.push temp m1) m2) (n + 1) ms

/-- The score-table projection (lines 185-220) in state-passing form:
the rows obtained by replaying `board.move_stack` from the initial
position, and the (unchanged) session state. -/
def score_table {Pos : Type} (api : ChessApi Pos)
    (st : SessionState Pos) : List ScoreRow × SessionState Pos :=
  (history_rows api api.initial 1 (api.move_stack st.board), st)

/-- The grounded prompt the chat handler builds (lines 243-245): current
FEN, the PGN export, and the user's question. -/
def grounded_prompt {Pos : Type} (api : ChessApi Pos)
    (white_player black_player : String) (st : SessionState Pos)
    (p : String) : String :=
  "Analyze this position.\nFEN: " ++ api.fen st.board ++ "\nPGN: " ++
    (get_pgn_download api st white_player black_player).1 ++
    "\nUser Question: " ++ p

/-- The chat-input handler (lines 238-252).  `chat_reply` maps the
grounded prompt to the provider outcome (`client` being `None` raises
inside the `try` and is an `error` outcome like any other failure).
Returns the updated state, the list of messages shown via `st.error`,
and whether `st.rerun()` ran.  On success the assistant turn is
appended; on failure only `st.error` is shown — no assistant turn. -/
def handle_chat {Pos : Type} (api : ChessApi Pos)
    (white_player black_player : String)
    (chat_reply : String → Except String String)
    (prompt : Option String) (st : SessionState Pos) :
    SessionState Pos × List String × Bool :=
  match prompt with
  | none => (st, [], false)
  | some p =>
    let st1 := { st with chat_history := st.chat_history ++ [⟨"user", p⟩] }
    match chat_reply (grounded_prompt api white_player black_player st1 p) with
    | .ok text =>
        ({ st1 with chat_history := st1.chat_history ++ [⟨"assistant", text⟩] },
         [], true)
    | .error e => (st1, ["AI Error: " ++ e], true)

/-- The widget inputs of one Streamlit script run: the two sidebar
selectboxes (lines 141-142, strings "Human" / "Gemini AI" /
"Stockfish"), the three buttons, the board-click coordinates and the
chat prompt.  Selectbox values are *inputs of the run*, re-read afresh
every rerun — they are not stored in `st.session_state`. -/
structure ScriptInput where
  white_player : String
  black_player : String
  new_game_clicked : Bool
  trigger_white_clicked : Bool
  trigger_black_clicked : Bool
  board_click : Option (Nat × Nat)
  chat_prompt : Option String

/-- The outcomes of the external processes a run may consult: whether a
Stockfish binary was found, whether the Gemini client was configured,
the engine-play outcome, the move-request reply and the chat reply. -/
structure ExternalWorld where
  stockfish_found : Bool
  client_ok : Bool
  engine_play : Except String (Option Move)
  ai_reply : Except String String
  chat_reply : String → Except String String

/-- The Trigger White Move handler (lines 152-162): shown and actioned
only when the White slot is not Human and White is to move; chooses the
provider by the *current* selectbox value; pushes whatever move the
provider returned, with no legality check.  `some` result means the
handler mutated the state and called `st.rerun()`; `none` means the run
continues. -/
def trigger_white_move {Pos : Type} (api : ChessApi Pos)
    (w : ExternalWorld) (inp : ScriptInput) (st : SessionState Pos) :
    Option (SessionState Pos) :=
  if inp.white_player ≠ "Human" ∧ api.turn st.board = true ∧
      inp.trigger_white_clicked then
    let r := if inp.white_player = "Stockfish"
             then get_engine_move w.stockfish_found w.engine_play
             else get_ai_move api w.client_ok w.ai_reply st.board
    match r.1 with
    | some m =>
        some { st with board := api.push st.board m, last_move := some m }
    | none => none
  else none

/-- The Trigger Black Move handler (lines 164-173), symmetric to
`trigger_white_move` (guard: Black slot not Human, Black to move). -/
def trigger_black_move {Pos : Type} (api : ChessApi Pos)
    (w : ExternalWorld) (inp : ScriptInput) (st : SessionState Pos) :
    Option (SessionState Pos) :=
  if inp.black_player ≠ "Human" ∧ api.turn st.board = false ∧
      inp.trigger_black_clicked then
    let r := if inp.black_player = "Stockfish"
             then get_engine_move w.stockfish_found w.engine_play
             else get_ai_move api w.client_ok w.ai_reply st.board
    match r.1 with
    | some m =>
        some { st with board := api.push st.board m, last_move := some m }
    | none => none
  else none

/-- One full run of the script body for an already-initialized session,
in source order: New Game handler, trigger handlers, board click,
score sheet and PGN export (pure — no state change), chat handler.
`st.rerun()` raises `RerunException` and aborts the rest of the run, so
each mutating handler that reruns short-circuits what follows; an
uncaught exception in the click handler likewise ends the run with the
state unchanged. -/
def script_step {Pos : Type} (api : ChessApi Pos) (w : ExternalWorld)
    (inp : ScriptInput) (st : SessionState Pos) : SessionState Pos :=
  if inp.new_game_clicked then handle_new_game api st
  else
    match trigger_white_move api w inp st with
    | some st1 => st1
    | none =>
      match trigger_black_move api w inp st with
      | some st1 => st1
      | none =>
        let afterClick :=
          match inp.board_click with
          | none => (st, false)
          | some (x, y) =>
            let r := handle_board_click api st (square_of_click x y)
            (r.state, r.rerun || r.crash)
        if afterClick.2 then afterClick.1
        else
          (handle_chat api inp.white_player inp.black_player w.chat_reply
            inp.chat_prompt afterClick.1).1

/-! ### A concrete toy instance of the chess interface

The claims are settled parametrically in the `ChessApi`; the toy instance
below provides concrete evaluation points.  Its `push` appends to the
stack and flips the side to move (the two library laws), piece placement
is a finite association list, and `from_uci` implements the UCI
coordinate grammar (file letter, rank digit, optional promotion
letter). -/

/-- A toy position: the move stack, the side to move, and a piece
association list. -/
structure ToyPos where
  stack : List Move
  white_to_move : Bool
  pieces : List (Nat × Piece)
deriving DecidableEq

/-- Square lookup in the toy piece list. -/
def toy_piece_at (pieces : List (Nat × Piece)) (sq : Nat) : Option Piece :=
  match pieces.find? (fun pr => pr.1 = sq) with
  | some pr => some pr.2
  | none => none

/-- UCI square: file letter `a`-`h` and rank digit `1`-`8`. -/
def toy_square_of (f r : Char) : Option Nat :=
  if 'a' ≤ f ∧ f ≤ 'h' ∧ '1' ≤ r ∧ r ≤ '8' then
    some ((r.toNat - '1'.toNat) * 8 + (f.toNat - 'a'.toNat))
  else none

/-- UCI promotion letter to piece-type constant. -/
def toy_promo_of (c : Char) : Option Nat :=
  if c = 'q' then some QUEEN
  else if c = 'n' then some 2
  else if c = 'b' then some 3
  else if c = 'r' then some 4
  else none

/-- A concrete UCI move parser for the toy instance
(`chess.Move.from_uci` semantics on coordinate moves). -/
def toy_from_uci (s : String) : Option Move :=
  match s.toList with
  | [f1, r1, f2, r2] =>
    match toy_square_of f1 r1, toy_square_of f2 r2 with
    | some a, some b => some ⟨a, b, none⟩
    | _, _ => none
  | [f1, r1, f2, r2, pc] =>
    match toy_square_of f1 r1, toy_square_of f2 r2, toy_promo_of pc with
    | some a, some b, some pr => some ⟨a, b, some pr⟩
    | _, _, _ => none
  | _ => none

/-- The toy chess interface, parameterized by its legal-move function and
its terminal-status function (in the real library these are related but
not identical: `is_game_over` also covers draw conditions such as
fivefold repetition, under which legal moves still exist). -/
def toy_api (legal : ToyPos → List Move) (over : ToyPos → Bool) :
    ChessApi ToyPos where
  initial := ⟨[], true, []⟩
  legal_moves := legal
  push := fun p m => ⟨p.stack ++ [m], !p.white_to_move, p.pieces⟩
  piece_at := fun p sq => toy_piece_at p.pieces sq
  turn := fun p => p.white_to_move
  move_stack := fun p => p.stack
  is_game_over := over
  san := fun p m =>
    toString p.stack.length ++ ":" ++ toString m.from_square ++ "-" ++
      toString m.to_square
  from_uci := toy_from_uci
  fen := fun p => "fen:" ++ toString p.stack.length
  pgn_export := fun p ev wn bn =>
    ev ++ "/" ++ wn ++ "/" ++ bn ++ "/" ++ toString p.stack.length

/-- The toy instance satisfies the assumed library laws. -/
theorem toy_api_laws (legal : ToyPos → List Move) (over : ToyPos → Bool) :
    ChessApiLaws (toy_api legal over) :=
  ⟨fun _ _ => rfl, fun _ _ => rfl, rfl⟩

/-! ### Shared helper lemmas -/

/-- Whatever `get_ai_move` returns as a move passed its own legality
check (line 67 of the source). -/
theorem ai_move_mem_legal {Pos : Type} (api : ChessApi Pos) (ok : Bool)
    (gen : Except String String) (b : Pos) (m : Move)
    (h : (get_ai_move api ok gen b).1 = some m) :
    m ∈ api.legal_moves b := by
  unfold get_ai_move at h
  split at h
  · simp at h
  · split at h
    · simp at h
    · split at h
      · simp at h
      · split at h
        · simp at h
        · split at h
          · next hmem =>
              simp only [Option.some.injEq] at h
              exact h ▸ hmem
          · simp at h

/-- The click handler either leaves the board alone or pushes a move
that is in the legal-move set of the current position. -/
theorem click_board_cases {Pos : Type} (api : ChessApi Pos)
    (st : SessionState Pos) (sq : Nat) :
    (handle_board_click api st sq).state.board = st.board ∨
    ∃ m ∈ api.legal_moves st.board,
      (handle_board_click api st sq).state.board = api.push st.board m := by
  unfold handle_board_click
  cases hsel : st.selected_square with
  | none =>
    cases hp : api.piece_at st.board sq with
    | none => left; simp [hp]
    | some pc =>
      by_cases hc : pc.color = api.turn st.board <;> simp [hp, hc]
  | some sel =>
    cases hb : build_candidate api st.board sel sq with
    | none => left; simp [hb]
    | some cand =>
      by_cases hmem : cand ∈ api.legal_moves st.board
      · right; exact ⟨cand, hmem, by simp [hb, hmem]⟩
      · left; simp [hb, hmem]

/-- The chat handler never touches the board. -/
theorem chat_board_eq {Pos : Type} (api : ChessApi Pos) (wp bp : String)
    (reply : String → Except String String) (prompt : Option String)
    (st : SessionState Pos) :
    (handle_chat api wp bp reply prompt st).1.board = st.board := by
  unfold handle_chat
  cases prompt with
  | none => rfl
  | some p =>
    cases h : reply (grounded_prompt api wp bp
        { st with chat_history := st.chat_history ++ [⟨"user", p⟩] } p) with
    | ok t => simp [h]
    | error e => simp [h]

/-- When the White slot is not bound to Stockfish, a successful Trigger
White Move pushed a move the Advisor path had validated as legal. -/
theorem trigger_white_some {Pos : Type} (api : ChessApi Pos)
    (w : ExternalWorld) (inp : ScriptInput) (st : SessionState Pos)
    (st1 : SessionState Pos) (hw : inp.white_player ≠ "Stockfish")
    (h : trigger_white_move api w inp st = some st1) :
    ∃ m ∈ api.legal_moves st.board, st1.board = api.push st.board m := by
  unfold trigger_white_move at h
  split at h
  · cases hai : (get_ai_move api w.client_ok w.ai_reply st.board).1 with
    | none => simp [hai] at h
    | some m =>
      simp only [hai, Option.some.injEq] at h
      exact ⟨m, ai_move_mem_legal api w.client_ok w.ai_reply st.board m hai,
        by rw [← h]⟩
  · simp at h

/-- When the Black slot is not bound to Stockfish, a successful Trigger
Black Move pushed a move the Advisor path had validated as legal. -/
theorem trigger_black_some {Pos : Type} (api : ChessApi Pos)
    (w : ExternalWorld) (inp : ScriptInput) (st : SessionState Pos)
    (st1 : SessionState Pos) (hb : inp.black_player ≠ "Stockfish")
    (h : trigger_black_move api w inp st = some st1) :
    ∃ m ∈ api.legal_moves st.board, st1.board = api.push st.board m := by
  unfold trigger_black_move at h
  split at h
  · cases hai : (get_ai_move api w.client_ok w.ai_reply st.board).1 with
    | none => simp [hai] at h
    | some m =>
      simp only [hai, Option.some.injEq] at h
      exact ⟨m, ai_move_mem_legal api w.client_ok w.ai_reply st.board m hai,
        by rw [← h]⟩
  · simp at h

/-- With the White slot bound to Stockfish, the trigger handler pushes
whatever move the engine process returned — there is no legality check
on this path. -/
theorem script_step_engine_white {Pos : Type} (api : ChessApi Pos)
    (w : ExternalWorld) (inp : ScriptInput) (st : SessionState Pos)
    (m : Move) (hng : inp.new_game_clicked = false)
    (hw : inp.white_player = "Stockfish")
    (hc : inp.trigger_white_clicked = true)
    (ht : api.turn st.board = true) (hs : w.stockfish_found = true)
    (he : w.engine_play = Except.ok (some m)) :
    script_step api w inp st
      = { st with board := api.push st.board m, last_move := some m } := by
  unfold script_step trigger_white_move
  rw [hng, hw, hc, ht]
  simp [get_engine_move, hs, he]

/-! ### Claim theorems -/

/-- C1: in the Armed phase of the pointer-driven move path, the built
candidate is accepted (pushed onto the board) exactly when it is a member
of the Rules Oracle's legal-move set for the current position, and on
acceptance the Move Ledger grows by exactly one entry and the side to
move flips to the other player. -/
theorem C1_pointer_submit_iff_legal {Pos : Type} (api : ChessApi Pos)
    (laws : ChessApiLaws api) (st : SessionState Pos) (sel sq : Nat)
    (cand : Move) (h_armed : st.selected_square = some sel)
    (hcand : build_candidate api st.board sel sq = some cand) :
    (cand ∈ api.legal_moves st.board →
      (handle_board_click api st sq).state.board = api.push st.board cand ∧
      (api.move_stack (handle_board_click api st sq).state.board).length
        = (api.move_stack st.board).length + 1 ∧
      api.turn (handle_board_click api st sq).state.board
        = !(api.turn st.board)) ∧
    (cand ∉ api.legal_moves st.board →
      (handle_board_click api st sq).state.board = st.board) := by
  constructor
  · intro hmem
    simp [handle_board_click, h_armed, hcand, hmem, laws.push_stack,
      laws.push_turn]
  · intro hmem
    simp [handle_board_click, h_armed, hcand, hmem]

def c1_api : ChessApi ToyPos :=
  toy_api (fun _ => [⟨12, 28, none⟩]) (fun _ => false)

def c1_st : SessionState ToyPos :=
  ⟨⟨[], true, [(12, ⟨true, PAWN⟩)]⟩, [], some 12, none⟩

/-- Witness for C1 at a concrete instance: square e2 armed, e4 clicked,
the move legal — it is pushed, the ledger grows from 0 to 1 and Black is
to move. -/
theorem C1_pointer_submit_iff_legal_witness :
    (handle_board_click c1_api c1_st 28).state.board
      = c1_api.push c1_st.board ⟨12, 28, none⟩ ∧
    (c1_api.move_stack (handle_board_click c1_api c1_st 28).state.board).length
      = (c1_api.move_stack c1_st.board).length + 1 ∧
    c1_api.turn (handle_board_click c1_api c1_st 28).state.board
      = !(c1_api.turn c1_st.board) :=
  (C1_pointer_submit_iff_legal c1_api (toy_api_laws _ _) c1_st 12 28
      ⟨12, 28, none⟩ rfl (by decide)).1 (by decide)

/-- C6: with a square armed whose piece is a pawn of the side to move
(hypothesis `hpawn`) and the second click on the opponent's back rank
(rank 7 for White to move, rank 0 for Black), the emitted candidate
carries a queen-promotion tag, never a plain untagged move; when legal it
is pushed with that tag. -/
theorem C6_auto_queen_promotion {Pos : Type} (api : ChessApi Pos)
    (st : SessionState Pos) (sel sq : Nat) (pc : Piece)
    (h_armed : st.selected_square = some sel)
    (hpc : api.piece_at st.board sel = some pc)
    (hpawn : pc.piece_type = PAWN)
    (hrank : sq / 8 = (if api.turn st.board then 7 else 0)) :
    build_candidate api st.board sel sq = some ⟨sel, sq, some QUEEN⟩ ∧
    ((⟨sel, sq, some QUEEN⟩ : Move) ∈ api.legal_moves st.board →
      (handle_board_click api st sq).state.board
        = api.push st.board ⟨sel, sq, some QUEEN⟩) := by
  have hr : sq / 8 = 0 ∨ sq / 8 = 7 := by
    cases h : api.turn st.board <;> rw [h] at hrank <;> simp [hrank]
  have hb : build_candidate api st.board sel sq
      = some ⟨sel, sq, some QUEEN⟩ := by
    simp [build_candidate, hr, hpc, hpawn]
  refine ⟨hb, fun hmem => ?_⟩
  simp [handle_board_click, h_armed, hb, hmem]

def c6_api : ChessApi ToyPos :=
  toy_api (fun _ => [⟨52, 60, some QUEEN⟩]) (fun _ => false)

def c6_st : SessionState ToyPos :=
  ⟨⟨[], true, [(52, ⟨true, PAWN⟩)]⟩, [], some 52, none⟩

/-- Witness for C6 at the spec's own instance: White pawn on e7 (square
52), White to move, e7 armed, e8 (square 60) clicked — the candidate is
e7e8 with promotion queen and it is pushed. -/
theorem C6_auto_queen_promotion_witness :
    build_candidate c6_api c6_st.board 52 60 = some ⟨52, 60, some QUEEN⟩ ∧
    (handle_board_click c6_api c6_st 60).state.board
      = c6_api.push c6_st.board ⟨52, 60, some QUEEN⟩ := by
  have h := C6_auto_queen_promotion c6_api c6_st 52 60 ⟨true, PAWN⟩ rfl
    (by decide) rfl (by decide)
  exact ⟨h.1, h.2 (by decide)⟩

/-- C9: the score-table projection and the portable-game-text export are
pure — each returns the session state unchanged, so a second call with no
intervening accepted move yields identical output, and neither call
changes the board or the Move Ledger. -/
theorem C9_projections_pure {Pos : Type} (api : ChessApi Pos)
    (st : SessionState Pos) (wn bn : String) :
    (get_pgn_download api st wn bn).2 = st ∧
    (get_pgn_download api ((get_pgn_download api st wn bn).2) wn bn).1
      = (get_pgn_download api st wn bn).1 ∧
    (score_table api st).2 = st ∧
    (score_table api ((score_table api st).2)).1 = (score_table api st).1 ∧
    api.move_stack (get_pgn_download api st wn bn).2.board
      = api.move_stack st.board ∧
    api.move_stack (score_table api st).2.board = api.move_stack st.board :=
  ⟨rfl, rfl, rfl, rfl, rfl, rfl⟩

/-- C10: `get_ai_move` is total and sound — it returns `(some m, none)`
only when the reply text's last whitespace-separated token parses as a
UCI move equal to `m` and `m` is in the board's legal-move set, and
whenever it returns no move it returns an error description instead. -/
theorem C10_ai_move_total_sound {Pos : Type} (api : ChessApi Pos)
    (client_ok : Bool) (gen : Except String String) (b : Pos) :
    (∀ m, (get_ai_move api client_ok gen b).1 = some m →
      (get_ai_move api client_ok gen b).2 = none ∧
      m ∈ api.legal_moves b ∧
      ∃ text tok, gen = Except.ok text ∧
        (py_split_ws text).getLast? = some tok ∧
        api.from_uci tok = some m) ∧
    ((get_ai_move api client_ok gen b).1 = none →
      ∃ e, (get_ai_move api client_ok gen b).2 = some e) := by
  unfold get_ai_move
  cases client_ok with
  | false => simp
  | true =>
    cases gen with
    | error e => simp
    | ok text =>
      cases hl : (py_split_ws text).getLast? with
      | none => simp [hl]
      | some tok =>
        cases hu : api.from_uci tok with
        | none => simp [hl, hu]
        | some mv =>
          by_cases hmem : mv ∈ api.legal_moves b
          · refine ⟨fun m hm => ?_, fun hm => ?_⟩
            · simp only [Bool.not_true, Bool.false_eq_true, if_false,
                hl, hu, if_pos hmem] at hm ⊢
              simp at hm
              subst hm
              exact ⟨by simp [hmem], hmem, text, tok, rfl, hl, hu⟩
            · simp [hl, hu, hmem] at hm
          · simp [hl, hu, hmem]

def c10_api : ChessApi ToyPos :=
  toy_api (fun _ => [⟨12, 28, none⟩]) (fun _ => false)

def c10_pos : ToyPos := ⟨[], true, []⟩

/-- Witness for C10: a chatty reply whose last token is `e2e4` yields the
parsed legal move with no error, and a provider failure yields an error
description. -/
theorem C10_ai_move_total_sound_witness :
    ((get_ai_move c10_api true (Except.ok "best is e2e4") c10_pos).2 = none ∧
      (⟨12, 28, none⟩ : Move) ∈ c10_api.legal_moves c10_pos ∧
      ∃ text tok,
        (Except.ok "best is e2e4" : Except String String) = Except.ok text ∧
        (py_split_ws text).getLast? = some tok ∧
        c10_api.from_uci tok = some ⟨12, 28, none⟩) ∧
    (∃ e, (get_ai_move c10_api true (Except.error "boom") c10_pos).2
      = some e) :=
  ⟨(C10_ai_move_total_sound c10_api true (Except.ok "best is e2e4")
      c10_pos).1 ⟨12, 28, none⟩ (by decide),
   (C10_ai_move_total_sound c10_api true (Except.error "boom") c10_pos).2
      (by decide)⟩

def c2_api : ChessApi ToyPos := toy_api (fun _ => []) (fun _ => false)

def c2_w : ExternalWorld :=
  ⟨true, false, Except.ok (some ⟨0, 1, none⟩), Except.error "x",
    fun _ => Except.error "x"⟩

def c2_inp : ScriptInput :=
  ⟨"Stockfish", "Human", false, true, false, none, none⟩

def c2_st : SessionState ToyPos := ⟨⟨[], true, []⟩, [], none, none⟩

/-- C2 is false on the code: the Trigger White Move handler pushes the
move returned by the engine process with no legality check, so a
position whose legal-move set is empty still advances — by a move that
is not in the Rules Oracle's legal-move set — without being a reset. -/
theorem C2_counterexample :
    (script_step c2_api c2_w c2_inp c2_st).board
      = c2_api.push c2_st.board ⟨0, 1, none⟩ ∧
    (⟨0, 1, none⟩ : Move) ∉ c2_api.legal_moves c2_st.board ∧
    (script_step c2_api c2_w c2_inp c2_st).board ≠ c2_st.board ∧
    (script_step c2_api c2_w c2_inp c2_st).board ≠ c2_api.initial := by
  decide

/-- C2 amended: moves applied through the pointer path or the Advisor
(Gemini) path are validated against the legal-move set at the moment of
application — when no slot is bound to Stockfish, every script run
leaves the board unchanged, resets it to the initial position, or pushes
an oracle-validated move.  A Stockfish-bound slot's returned move,
however, is pushed without any validation. -/
theorem C2_amended {Pos : Type} (api : ChessApi Pos) (w : ExternalWorld)
    (inp : ScriptInput) (st : SessionState Pos) (m : Move) :
    (inp.white_player ≠ "Stockfish" → inp.black_player ≠ "Stockfish" →
      (script_step api w inp st).board = st.board ∨
      (script_step api w inp st).board = api.initial ∨
      ∃ m2 ∈ api.legal_moves st.board,
        (script_step api w inp st).board = api.push st.board m2) ∧
    (inp.new_game_clicked = false → inp.white_player = "Stockfish" →
      inp.trigger_white_clicked = true → api.turn st.board = true →
      w.stockfish_found = true → w.engine_play = Except.ok (some m) →
      (script_step api w inp st).board = api.push st.board m) := by
  constructor
  · intro hw hb
    unfold script_step
    by_cases hng : inp.new_game_clicked = true
    · rw [if_pos hng]; right; left; rfl
    · rw [if_neg hng]
      cases htw : trigger_white_move api w inp st with
      | some st1 =>
        obtain ⟨m2, hm2, hb2⟩ := trigger_white_some api w inp st st1 hw htw
        right; right; exact ⟨m2, hm2, hb2⟩
      | none =>
        cases htb : trigger_black_move api w inp st with
        | some st1 =>
          obtain ⟨m2, hm2, hb2⟩ := trigger_black_some api w inp st st1 hb htb
          right; right; exact ⟨m2, hm2, hb2⟩
        | none =>
          cases hbc : inp.board_click with
          | none =>
            simp only [hbc]
            left
            exact chat_board_eq api inp.white_player inp.black_player
              w.chat_reply inp.chat_prompt st
          | some xy =>
            obtain ⟨x, y⟩ := xy
            simp only [hbc]
            rcases click_board_cases api st (square_of_click x y) with
              hcb | ⟨m2, hm2, hcb⟩
            · left
              by_cases hflag : ((handle_board_click api st
                  (square_of_click x y)).rerun
                    || (handle_board_click api st
                      (square_of_click x y)).crash) = true
              · rw [if_pos hflag]; exact hcb
              · rw [if_neg hflag, chat_board_eq]; exact hcb
            · right; right
              refine ⟨m2, hm2, ?_⟩
              by_cases hflag : ((handle_board_click api st
                  (square_of_click x y)).rerun
                    || (handle_board_click api st
                      (square_of_click x y)).crash) = true
              · rw [if_pos hflag]; exact hcb
              · rw [if_neg hflag, chat_board_eq]; exact hcb
  · intro hng hw hc ht hs he
    rw [script_step_engine_white api w inp st m hng hw hc ht hs he]

def c2w_api : ChessApi ToyPos :=
  toy_api (fun _ => [⟨12, 28, none⟩]) (fun _ => false)

def c2w_w : ExternalWorld :=
  ⟨true, true, Except.ok (some ⟨6, 21, none⟩), Except.ok "e2e4",
    fun _ => Except.error "x"⟩

def c2w_inpA : ScriptInput :=
  ⟨"Gemini AI", "Human", false, true, false, none, none⟩

def c2w_inpB : ScriptInput :=
  ⟨"Stockfish", "Human", false, true, false, none, none⟩

def c2w_st : SessionState ToyPos := ⟨⟨[], true, []⟩, [], none, none⟩

/-- Witness for C2 amended: with the White slot on Gemini the run pushes
an oracle-validated move, and with the White slot on Stockfish the run
pushes exactly the engine's returned move. -/
theorem C2_amended_witness :
    ((script_step c2w_api c2w_w c2w_inpA c2w_st).board = c2w_st.board ∨
      (script_step c2w_api c2w_w c2w_inpA c2w_st).board = c2w_api.initial ∨
      ∃ m2 ∈ c2w_api.legal_moves c2w_st.board,
        (script_step c2w_api c2w_w c2w_inpA c2w_st).board
          = c2w_api.push c2w_st.board m2) ∧
    (script_step c2w_api c2w_w c2w_inpB c2w_st).board
      = c2w_api.push c2w_st.board ⟨6, 21, none⟩ :=
  ⟨(C2_amended c2w_api c2w_w c2w_inpA c2w_st ⟨6, 21, none⟩).1
      (by decide) (by decide),
   (C2_amended c2w_api c2w_w c2w_inpB c2w_st ⟨6, 21, none⟩).2
      rfl rfl rfl rfl rfl rfl⟩

def c3_api : ChessApi ToyPos :=
  toy_api (fun _ => [⟨8, 16, none⟩]) (fun _ => true)

def c3_st : SessionState ToyPos :=
  ⟨⟨[], true, [(8, ⟨true, PAWN⟩)]⟩, [], some 8, none⟩

/-- C3 is false on the code: neither handler ever consults the oracle's
terminal status.  At a position the oracle reports as game over while
its legal-move list is nonempty (in python-chess, e.g. a draw by
fivefold repetition or the seventy-five-move rule), the pointer path
still accepts a legal candidate — the Ledger grows — and nothing
resembling a "game over" rejection is reported. -/
theorem C3_counterexample :
    c3_api.is_game_over c3_st.board = true ∧
    (c3_api.move_stack (handle_board_click c3_api c3_st 16).state.board).length
      = (c3_api.move_stack c3_st.board).length + 1 ∧
    (handle_board_click c3_api c3_st 16).reported = none := by
  decide

/-- C3 amended: the handlers never consult `is_game_over` (their results
are unchanged under any replacement of that field), and at a terminal
state whose legal-move set is empty the pointer path leaves the board
unchanged — rejecting every candidate through the ordinary silent
illegal-move path, with no fixed "game over" report. -/
theorem C3_amended {Pos : Type} (api : ChessApi Pos) (over : Pos → Bool)
    (w : ExternalWorld) (inp : ScriptInput) (st : SessionState Pos)
    (sq : Nat) (hempty : api.legal_moves st.board = []) :
    handle_board_click { api with is_game_over := over } st sq
      = handle_board_click api st sq ∧
    script_step { api with is_game_over := over } w inp st
      = script_step api w inp st ∧
    (handle_board_click api st sq).state.board = st.board ∧
    (handle_board_click api st sq).reported = none := by
  refine ⟨rfl, rfl, ?_⟩
  unfold handle_board_click
  cases hsel : st.selected_square with
  | none =>
    cases hp : api.piece_at st.board sq with
    | none => simp [hp]
    | some pc =>
      by_cases hc : pc.color = api.turn st.board <;> simp [hp, hc]
  | some sel =>
    cases hb : build_candidate api st.board sel sq with
    | none => simp [hb]
    | some cand => simp [hb, hempty]

def c3w_api : ChessApi ToyPos := toy_api (fun _ => []) (fun _ => true)

def c3w_over : ToyPos → Bool := fun _ => false

def c3w_w : ExternalWorld :=
  ⟨false, false, Except.error "e", Except.error "e", fun _ => Except.error "e"⟩

def c3w_inp : ScriptInput :=
  ⟨"Human", "Human", false, false, false, none, none⟩

def c3w_st : SessionState ToyPos :=
  ⟨⟨[], true, [(8, ⟨true, PAWN⟩)]⟩, [], some 8, none⟩

/-- Witness for C3 amended at a concrete terminal position with no legal
moves: replacing the terminal flag changes nothing, and the armed click
is rejected silently with the board unchanged. -/
theorem C3_amended_witness :
    handle_board_click { c3w_api with is_game_over := c3w_over } c3w_st 16
      = handle_board_click c3w_api c3w_st 16 ∧
    script_step { c3w_api with is_game_over := c3w_over } c3w_w c3w_inp c3w_st
      = script_step c3w_api c3w_w c3w_inp c3w_st ∧
    (handle_board_click c3w_api c3w_st 16).state.board = c3w_st.board ∧
    (handle_board_click c3w_api c3w_st 16).reported = none :=
  C3_amended c3w_api c3w_over c3w_w c3w_inp c3w_st 16 rfl

def c4_api : ChessApi ToyPos := toy_api (fun _ => []) (fun _ => false)

def c4_st : SessionState ToyPos :=
  ⟨⟨[], true, [(8, ⟨true, PAWN⟩)]⟩, [], some 8, none⟩

/-- C4 is false on the code in its reporting part: at a concrete illegal
candidate the board is unchanged and the selection is cleared, but no
rejection reason is surfaced anywhere — lines 121-123 contain no
display call, so the rejection is silent. -/
theorem C4_counterexample :
    build_candidate c4_api c4_st.board 8 16 = some ⟨8, 16, none⟩ ∧
    (⟨8, 16, none⟩ : Move) ∉ c4_api.legal_moves c4_st.board ∧
    (handle_board_click c4_api c4_st 16).state.board = c4_st.board ∧
    (handle_board_click c4_api c4_st 16).state.selected_square = none ∧
    (handle_board_click c4_api c4_st 16).reported = none := by
  decide

/-- C4 amended: when the submitted candidate is rejected as illegal, the
board and the Move Ledger are unchanged and the selection is reset to
Idle, but the rejection reason is silently dropped — nothing is reported
to the caller. -/
theorem C4_amended {Pos : Type} (api : ChessApi Pos)
    (st : SessionState Pos) (sel sq : Nat) (cand : Move)
    (h_armed : st.selected_square = some sel)
    (hcand : build_candidate api st.board sel sq = some cand)
    (hrej : cand ∉ api.legal_moves st.board) :
    (handle_board_click api st sq).state.board = st.board ∧
    api.move_stack (handle_board_click api st sq).state.board
      = api.move_stack st.board ∧
    (handle_board_click api st sq).state.selected_square = none ∧
    (handle_board_click api st sq).reported = none := by
  simp [handle_board_click, h_armed, hcand, hrej]

def c4w_api : ChessApi ToyPos := toy_api (fun _ => []) (fun _ => false)

def c4w_st : SessionState ToyPos :=
  ⟨⟨[], true, [(9, ⟨true, PAWN⟩)]⟩, [], some 9, none⟩

/-- Witness for C4 amended at a concrete rejected candidate. -/
theorem C4_amended_witness :
    (handle_board_click c4w_api c4w_st 17).state.board = c4w_st.board ∧
    c4w_api.move_stack (handle_board_click c4w_api c4w_st 17).state.board
      = c4w_api.move_stack c4w_st.board ∧
    (handle_board_click c4w_api c4w_st 17).state.selected_square = none ∧
    (handle_board_click c4w_api c4w_st 17).reported = none :=
  C4_amended c4w_api c4w_st 9 17 ⟨9, 17, none⟩ rfl (by decide) (by decide)

def c5_api : ChessApi ToyPos := toy_api (fun _ => []) (fun _ => false)

def c5_w : ExternalWorld :=
  ⟨false, false, Except.error "e", Except.error "e", fun _ => Except.error "e"⟩

def c5_inp : ScriptInput :=
  ⟨"Human", "Human", true, false, false, none, none⟩

def c5_st : SessionState ToyPos :=
  ⟨⟨[⟨12, 28, none⟩], false, []⟩, [⟨"user", "hi"⟩], some 33, some ⟨12, 28, none⟩⟩

/-- C5 is false on the code: the New Game handler rebinds the board, the
chat transcript and the last move, but never touches
`selected_square` — after a reset from a state with square 33 armed, the
selection is still square 33, not cleared to None. -/
theorem C5_counterexample :
    (script_step c5_api c5_w c5_inp c5_st).selected_square = some 33 ∧
    (script_step c5_api c5_w c5_inp c5_st).selected_square ≠ none := by
  decide

/-- C5 amended: after a New Game reset the board is the standard initial
position, the Move Ledger is empty, the chat transcript is cleared and
the last move is cleared — but the SelectionState is left exactly as it
was before the reset, not cleared. -/
theorem C5_amended {Pos : Type} (api : ChessApi Pos)
    (laws : ChessApiLaws api) (w : ExternalWorld) (inp : ScriptInput)
    (st : SessionState Pos) (hng : inp.new_game_clicked = true) :
    script_step api w inp st = handle_new_game api st ∧
    (script_step api w inp st).board = api.initial ∧
    api.move_stack (script_step api w inp st).board = [] ∧
    (script_step api w inp st).chat_history = [] ∧
    (script_step api w inp st).last_move = none ∧
    (script_step api w inp st).selected_square = st.selected_square := by
  simp [script_step, hng, handle_new_game, laws.initial_stack]

def c5w_api : ChessApi ToyPos := toy_api (fun _ => []) (fun _ => false)

def c5w_w : ExternalWorld :=
  ⟨false, false, Except.error "e", Except.error "e", fun _ => Except.error "e"⟩

def c5w_inp : ScriptInput :=
  ⟨"Human", "Stockfish", true, false, false, none, none⟩

def c5w_st : SessionState ToyPos :=
  ⟨⟨[⟨1, 2, none⟩], false, []⟩, [⟨"assistant", "ok"⟩], some 7, some ⟨1, 2, none⟩⟩

/-- Witness for C5 amended at a concrete pre-reset state with square 7
armed. -/
theorem C5_amended_witness :
    script_step c5w_api c5w_w c5w_inp c5w_st = handle_new_game c5w_api c5w_st ∧
    (script_step c5w_api c5w_w c5w_inp c5w_st).board = c5w_api.initial ∧
    c5w_api.move_stack (script_step c5w_api c5w_w c5w_inp c5w_st).board = [] ∧
    (script_step c5w_api c5w_w c5w_inp c5w_st).chat_history = [] ∧
    (script_step c5w_api c5w_w c5w_inp c5w_st).last_move = none ∧
    (script_step c5w_api c5w_w c5w_inp c5w_st).selected_square
      = c5w_st.selected_square :=
  C5_amended c5w_api (toy_api_laws _ _) c5w_w c5w_inp c5w_st rfl

def c7_api : ChessApi ToyPos := toy_api (fun _ => []) (fun _ => false)

def c7_st : SessionState ToyPos := ⟨⟨[], true, []⟩, [], none, none⟩

/-- C7 is false on the code: when the provider errors, the handler shows
`st.error` but appends no assistant turn — after asking "why?" against a
failing provider the transcript is exactly one user turn with no
matching assistant turn. -/
theorem C7_counterexample :
    (handle_chat c7_api "Human" "Human" (fun _ => Except.error "boom")
        (some "why?") c7_st).1.chat_history = [⟨"user", "why?"⟩] ∧
    ((handle_chat c7_api "Human" "Human" (fun _ => Except.error "boom")
        (some "why?") c7_st).1.chat_history.filter
          (fun msg => msg.role = "assistant")).length = 0 ∧
    (handle_chat c7_api "Human" "Human" (fun _ => Except.error "boom")
        (some "why?") c7_st).2.1 = ["AI Error: boom"] := by
  decide

/-- C7 amended: every submitted question appends a user turn and never
lets an exception escape; on provider success an assistant turn with the
reply is also appended, but on provider failure no assistant turn is
appended — the error is only displayed outside the transcript, so the
transcript can gain user turns with no matching assistant turn. -/
theorem C7_amended {Pos : Type} (api : ChessApi Pos) (wp bp : String)
    (reply : String → Except String String) (p : String)
    (st : SessionState Pos) :
    (handle_chat api wp bp reply (some p) st).1.board = st.board ∧
    ((∃ t, (handle_chat api wp bp reply (some p) st).1.chat_history
        = st.chat_history ++ [⟨"user", p⟩, ⟨"assistant", t⟩] ∧
        (handle_chat api wp bp reply (some p) st).2.1 = []) ∨
      (∃ e, (handle_chat api wp bp reply (some p) st).1.chat_history
        = st.chat_history ++ [⟨"user", p⟩] ∧
        (handle_chat api wp bp reply (some p) st).2.1
          = ["AI Error: " ++ e])) := by
  unfold handle_chat
  cases h : reply (grounded_prompt api wp bp
      { st with chat_history := st.chat_history ++ [⟨"user", p⟩] } p) with
  | ok t => exact ⟨by simp [h], Or.inl ⟨t, by simp [h], by simp [h]⟩⟩
  | error e => exact ⟨by simp [h], Or.inr ⟨e, by simp [h], by simp [h]⟩⟩

def c8_api : ChessApi ToyPos :=
  toy_api (fun _ => [⟨8, 16, none⟩, ⟨9, 17, none⟩]) (fun _ => false)

def c8_w : ExternalWorld :=
  ⟨true, true, Except.ok (some ⟨8, 16, none⟩), Except.ok "b2b3",
    fun _ => Except.error "e"⟩

def c8_inp1 : ScriptInput :=
  ⟨"Stockfish", "Human", false, true, false, none, none⟩

def c8_inp2 : ScriptInput :=
  ⟨"Gemini AI", "Human", false, true, false, none, none⟩

def c8_st : SessionState ToyPos := ⟨⟨[], true, []⟩, [], none, none⟩

/-- C8 is false on the code: the slot→source binding is the live value
of a sidebar selectbox, re-read on every rerun.  From one and the same
session state, with no reset anywhere, two runs that differ only in the
White selectbox draw White's move from different sources and produce
different boards — the binding changed with no reset-coincident
reconfiguration. -/
theorem C8_counterexample :
    c8_inp1.new_game_clicked = false ∧ c8_inp2.new_game_clicked = false ∧
    (script_step c8_api c8_w c8_inp1 c8_st).board
      = c8_api.push c8_st.board ⟨8, 16, none⟩ ∧
    (script_step c8_api c8_w c8_inp2 c8_st).board
      = c8_api.push c8_st.board ⟨9, 17, none⟩ ∧
    (script_step c8_api c8_w c8_inp1 c8_st).board
      ≠ (script_step c8_api c8_w c8_inp2 c8_st).board := by
  decide

/-- C8 amended: the binding of a PlayerSlot to a SourceKind is the
current rerun's selectbox value, not session state — a New Game reset
produces the same result whatever the selectbox values are (it rebinds
nothing), and the source that supplies a triggered White move is chosen
by the selectbox value of that very run: Stockfish's returned move is
pushed when it reads "Stockfish", the Advisor path is used when it
reads "Gemini AI". -/
theorem C8_amended {Pos : Type} (api : ChessApi Pos) (w : ExternalWorld)
    (inp : ScriptInput) (st : SessionState Pos) (m : Move) :
    (inp.new_game_clicked = true →
      ∀ a b, script_step api w
          { inp with white_player := a, black_player := b } st
        = handle_new_game api st) ∧
    (inp.new_game_clicked = false → inp.white_player = "Stockfish" →
      inp.trigger_white_clicked = true → api.turn st.board = true →
      w.stockfish_found = true → w.engine_play = Except.ok (some m) →
      (script_step api w inp st).board = api.push st.board m) ∧
    (inp.new_game_clicked = false → inp.white_player = "Gemini AI" →
      inp.trigger_white_clicked = true → api.turn st.board = true →
      (get_ai_move api w.client_ok w.ai_reply st.board).1 = some m →
      (script_step api w inp st).board = api.push st.board m) := by
  refine ⟨?_, ?_, ?_⟩
  · intro hng a b
    simp [script_step, hng]
  · intro hng hw hc ht hs he
    rw [script_step_engine_white api w inp st m hng hw hc ht hs he]
  · intro hng hw hc ht hai
    unfold script_step trigger_white_move
    rw [hng, hw, hc, ht]
    simp [hai]

def c8w_api : ChessApi ToyPos :=
  toy_api (fun _ => [⟨10, 18, none⟩, ⟨11, 19, none⟩]) (fun _ => false)

def c8w_w : ExternalWorld :=
  ⟨true, true, Except.ok (some ⟨10, 18, none⟩), Except.ok "d2d3",
    fun _ => Except.error "e"⟩

def c8w_inp0 : ScriptInput :=
  ⟨"Human", "Human", true, false, false, none, none⟩

def c8w_inp1 : ScriptInput :=
  ⟨"Stockfish", "Human", false, true, false, none, none⟩

def c8w_inp2 : ScriptInput :=
  ⟨"Gemini AI", "Human", false, true, false, none, none⟩

def c8w_st : SessionState ToyPos := ⟨⟨[], true, []⟩, [], none, none⟩

/-- Witness for C8 amended: a reset run is insensitive to the selectbox
values, a "Stockfish" run pushes the engine's move, a "Gemini AI" run
pushes the Advisor's validated move. -/
theorem C8_amended_witness :
    script_step c8w_api c8w_w
        { c8w_inp0 with white_player := "X", black_player := "Y" } c8w_st
      = handle_new_game c8w_api c8w_st ∧
    (script_step c8w_api c8w_w c8w_inp1 c8w_st).board
      = c8w_api.push c8w_st.board ⟨10, 18, none⟩ ∧
    (script_step c8w_api c8w_w c8w_inp2 c8w_st).board
      = c8w_api.push c8w_st.board ⟨11, 19, none⟩ :=
  ⟨(C8_amended c8w_api c8w_w c8w_inp0 c8w_st ⟨10, 18, none⟩).1 rfl "X" "Y",
   (C8_amended c8w_api c8w_w c8w_inp1 c8w_st ⟨10, 18, none⟩).2.1
      rfl rfl rfl rfl rfl rfl,
   (C8_amended c8w_api c8w_w c8w_inp2 c8w_st ⟨11, 19, none⟩).2.2
      rfl rfl rfl rfl (by decide)⟩

end ChessTutor
